import Mathlib

/-!
Verification of robotframework-sudslibrary keyword logic.

Shallow embedding of `src/SudsLibrary/clientmanagement.py` and
`src/SudsLibrary/options.py`.  Python exceptions are modelled with
`Except PyErr`; the filesystem is a parameter `isfile : String → Bool`;
Python dictionaries are modelled as insertion-ordered association lists
with key-overwriting insert.
-/

/-- Python exception kinds raised by the embedded code.
`IOError` (raised by `_get_url`) plays the role of the spec's
`NotFoundError`; `ValueError` plays `ArgumentError`; `IndexError`
(a `LookupError` subclass in Python) plays `LookupError`. -/
inductive PyErr
  | valueError (msg : String)
  | indexError
  | ioError (msg : String)
deriving DecidableEq, Repr

/-! ### Python 2.7 urlparse scheme extraction

`clientmanagement._get_url` calls `urlparse(url_or_path).scheme`.
This embeds the scheme-extraction logic of Python 2.7's
`urlparse.urlsplit`: find the first colon; if it is at a positive index
and everything before it is `http`, or consists only of scheme
characters (ASCII letters, digits, `+`, `-`, `.`) and the remainder is
not a pure digit string (the "not actually a port number" rule), the
lowercased prefix is the scheme; otherwise the scheme is empty. -/

/-- Characters allowed in a URI scheme by Python 2.7 urlparse
(`scheme_chars`). -/
def schemeChar (c : Char) : Bool :=
  c.isAlpha || c.isDigit || c == '+' || c == '-' || c == '.'

/-- Split a character list at the first colon, returning the part
before and after it; `none` if there is no colon.  Embeds
`url.find(':')` together with the slices `url[:i]` and `url[i+1:]`. -/
def splitFirstColon : List Char → Option (List Char × List Char)
  | [] => none
  | c :: rest =>
    if c = ':' then some ([], rest)
    else
      match splitFirstColon rest with
      | some (pre, post) => some (c :: pre, post)
      | none => none

/-- The `scheme` component of Python 2.7 `urlparse` applied to `url`.
This is what the source means by the scheme of an input string. -/
def pyScheme (url : String) : String :=
  match splitFirstColon url.toList with
  | none => ""
  | some (pre, rest) =>
    if pre = [] then ""
    else if pre = "http".toList then "http"
    else if pre.all schemeChar then
      if rest ≠ [] && rest.all Char.isDigit then ""
      else String.mk (pre.map Char.toLower)
    else ""

/-! ### Python 2 urllib.pathname2url (posix) = urllib.quote -/

/-- Uppercase hexadecimal digit for `n < 16`. -/
def hexDigit (n : Nat) : Char :=
  if n < 10 then Char.ofNat (48 + n) else Char.ofNat (55 + n)

/-- Characters Python 2 `urllib.quote` leaves unencoded:
`always_safe` (ASCII letters, digits, `_`, `.`, `-`) plus the default
safe character `/`. -/
def quoteSafe (c : Char) : Bool :=
  c.isAlpha || c.isDigit || c == '_' || c == '.' || c == '-' || c == '/'

/-- Percent-encode one character as `urllib.quote` does: safe
characters pass through, everything else becomes `%XX` with two
uppercase hex digits of the byte value. -/
def quoteChar (c : Char) : String :=
  if quoteSafe c then String.singleton c
  else "%" ++ String.mk [hexDigit (c.toNat / 16 % 16), hexDigit (c.toNat % 16)]

/-- Python 2 `urllib.pathname2url` on posix: `urllib.quote` of the
path, i.e. percent-encoding of every unsafe character. -/
def pathname2url (p : String) : String :=
  String.join (p.toList.map quoteChar)

/-! ### clientmanagement._get_url (spec: ResolveSource) -/

/-- Embedding of `_ClientManagementKeywords._get_url`
(clientmanagement.py lines 105-110).  The filesystem is abstracted by
`isfile` (Python `os.path.isfile`): `isfile p = true` iff a regular
file exists at path `p`.

```
if not len(urlparse(url_or_path).scheme) > 1:
    if not os.path.isfile(url_or_path):
        raise IOError("File not found.")
    url_or_path = 'file:' + urllib.pathname2url(url_or_path)
return url_or_path
``` -/
def get_url (isfile : String → Bool) (url_or_path : String) : Except PyErr String :=
  if (pyScheme url_or_path).length > 1 then Except.ok url_or_path
  else if isfile url_or_path then Except.ok ("file:" ++ pathname2url url_or_path)
  else Except.error (PyErr.ioError url_or_path)

/-! ### Python dictionaries as insertion-ordered association lists -/

/-- Python `dict` lookup on an association list with unique keys
(first match; our inserts keep keys unique). -/
def dlookup {α β : Type} [DecidableEq α] : List (α × β) → α → Option β
  | [], _ => none
  | p :: rest, k => if p.1 = k then some p.2 else dlookup rest k

/-- Python `d[k] = v`: overwrite the value in place if the key is
present, otherwise append the new binding at the end. -/
def pyDictInsert {α β : Type} [DecidableEq α] : List (α × β) → α → β → List (α × β)
  | [], k, v => [(k, v)]
  | p :: rest, k, v =>
    if p.1 = k then (p.1, v) :: rest else p :: pyDictInsert rest k v

/-- Chunk a flat argument list into consecutive (name, value) pairs, in
order, as the Python loops `for i in range(0, len(xs), 2)` enumerate
them.  A trailing odd element is dropped (the code errors first in that
case). -/
def pairsOf {α : Type} : List α → List (α × α)
  | k :: v :: rest => (k, v) :: pairsOf rest
  | _ => []

/-- Build a Python dict by inserting the given pairs left to right. -/
def pyDictFromPairs {α : Type} [DecidableEq α] (ps : List (α × α)) : List (α × α) :=
  ps.foldl (fun d p => pyDictInsert d p.1 p.2) []

/-- The dict the Python pair-loops build from a flat argument list. -/
def pairsToDict {α : Type} [DecidableEq α] (args : List α) : List (α × α) :=
  pyDictFromPairs (pairsOf args)

/-- Value of the LAST pair in the list whose key equals `k0`, if any:
the reference semantics for "later occurrences overwrite earlier
ones". -/
def lookupLastPair {α β : Type} [DecidableEq α] : List (α × β) → α → Option β
  | [], _ => none
  | p :: rest, k0 =>
    match lookupLastPair rest k0 with
    | some w => some w
    | none => if p.1 = k0 then some p.2 else none

theorem dlookup_pyDictInsert {α β : Type} [DecidableEq α]
    (d : List (α × β)) (k : α) (v : β) (k0 : α) :
    dlookup (pyDictInsert d k v) k0 = if k = k0 then some v else dlookup d k0 := by
  induction d with
  | nil => simp [pyDictInsert, dlookup, eq_comm]
  | cons p rest ih =>
    by_cases hpk : p.1 = k
    · subst hpk
      simp only [pyDictInsert, if_pos rfl, dlookup]
      by_cases hk0 : p.1 = k0 <;> simp [hk0]
    · simp only [pyDictInsert, if_neg hpk, dlookup]
      by_cases hk0 : p.1 = k0
      · subst hk0
        have : ¬ k = p.1 := fun h => hpk h.symm
        simp [this]
      · simp [hk0, ih]

theorem dlookup_pyDictFromPairs_aux {α : Type} [DecidableEq α]
    (ps : List (α × α)) (acc : List (α × α)) (k0 : α) :
    dlookup (ps.foldl (fun d p => pyDictInsert d p.1 p.2) acc) k0 =
      match lookupLastPair ps k0 with
      | some w => some w
      | none => dlookup acc k0 := by
  induction ps generalizing acc with
  | nil => simp [lookupLastPair]
  | cons p rest ih =>
    simp only [List.foldl_cons, lookupLastPair]
    rw [ih]
    cases h : lookupLastPair rest k0 with
    | some w => simp
    | none =>
      simp only
      rw [dlookup_pyDictInsert]
      by_cases hk : p.1 = k0 <;> simp [hk]

/-- Lookup in the dict built from a flat pair list returns the value of
the last pair carrying that key: later pairs overwrite earlier ones. -/
theorem dlookup_pairsToDict {α : Type} [DecidableEq α] (args : List α) (k0 : α) :
    dlookup (pairsToDict args) k0 = lookupLastPair (pairsOf args) k0 := by
  unfold pairsToDict pyDictFromPairs
  rw [dlookup_pyDictFromPairs_aux]
  cases h : lookupLastPair (pairsOf args) k0 <;> simp [dlookup]

/-! ### Boolean-string parsing (utils.to_bool)

`to_bool` lives in `src/SudsLibrary/utils.py`, which is not among the
provided sources; only its call sites are (`create_client` for the
autoblend argument, `_set_boolean_option` for Set Return Xml). -/

/-- Modelled from the spec: `to_bool` of SudsLibrary/utils.py is
missing from the sources.  Per spec section 8/9: "True", "true",
"yes", "on", "1" parse to true; "False", "false", "no", "off", "0",
"" parse to false; any other literal fails with ArgumentError
(Python ValueError). -/
def to_bool (s : String) : Except PyErr Bool :=
  if s = "True" || s = "true" || s = "yes" || s = "on" || s = "1" then
    Except.ok true
  else if s = "False" || s = "false" || s = "no" || s = "off" || s = "0" || s = "" then
    Except.ok false
  else
    Except.error (PyErr.valueError "could not convert string to bool")

/-! ### Python int() on strings, and str.upper() -/

/-- Python `str.strip()`: drop whitespace from both ends. -/
def pyStrip (s : String) : List Char :=
  ((s.toList.dropWhile Char.isWhitespace).reverse.dropWhile Char.isWhitespace).reverse

/-- Python `int(s)` for a string argument: strip surrounding
whitespace, allow one optional sign, then require a nonempty run of
decimal digits; anything else raises ValueError. -/
def pyInt (s : String) : Except PyErr Int :=
  let t := pyStrip s
  let core := match t with
    | '-' :: rest => rest
    | '+' :: rest => rest
    | l => l
  if core ≠ [] && core.all Char.isDigit then
    let n : Nat := core.foldl (fun acc c => 10 * acc + (c.toNat - 48)) 0
    Except.ok (if t.head? = some '-' then -(n : Int) else (n : Int))
  else
    Except.error (PyErr.valueError "invalid literal for int")

/-- Python `str.upper()` (ASCII). -/
def pyUpper (s : String) : String :=
  String.mk (s.toList.map Char.toUpper)

/-! ### The current client and the options keywords

Keyword arguments arrive from the tabular test runner as strings, or
(for Set Headers) as a pre-built dictionary.  `Arg` models such an
argument value. -/

/-- An argument value passed to a keyword: a string, or a pre-built
string-to-string dictionary. -/
inductive Arg
  | str (s : String)
  | dict (d : List (String × String))
deriving DecidableEq, Repr

/-- The transport installed by `set_http_authentication`.  The three
constructors stand for the three classes in options.py lines 106-110:
`suds.transport.https.HttpAuthenticated` (STANDARD: sends credentials
only after a 401 challenge), `suds.transport.http.HttpAuthenticated`
imported as AlwaysSendTransport (ALWAYS_SEND: sends an Authorization
header on every request), and `WindowsHttpAuthenticated` (NTLM). -/
inductive Transport
  | default
  | httpsAuthenticated (username password : String)
  | alwaysSendAuthenticated (username password : String)
  | windowsHttpAuthenticated (username password : String)
deriving DecidableEq, Repr

/-- The mutable options of the current suds client that the embedded
keywords touch.  `headers` holds either the verbatim single argument
(left) or a dict built from name-value pairs (right). -/
structure Client where
  headers : Option (Arg ⊕ List (Arg × Arg)) := none
  proxy : Option (List (Arg × Arg)) := none
  transport : Transport := Transport.default
  retxml : Bool := false
deriving DecidableEq, Repr

/-- Embedding of `_OptionsKeywords.set_headers` (options.py lines
53-70): a single argument is applied verbatim; an even-length list is
folded into a dict pairwise; any other (odd) length raises ValueError
before `set_options` is reached, so the client is unchanged. -/
def set_headers (args : List Arg) (c : Client) : Except PyErr Client :=
  match args with
  | [a] => Except.ok { c with headers := some (Sum.inl a) }
  | _ =>
    if args.length % 2 = 0 then
      Except.ok { c with headers := some (Sum.inr (pairsToDict args)) }
    else
      Except.error (PyErr.valueError "There should be an even number of name-value pairs.")

/-- Embedding of `_OptionsKeywords.set_proxies` (options.py lines
41-51): odd-length argument lists raise ValueError before any state
change; even-length lists are folded pairwise into a protocol-to-URL
dict which is applied to the current client. -/
def set_proxies (pairs : List Arg) (c : Client) : Except PyErr Client :=
  if pairs.length % 2 ≠ 0 then
    Except.error (PyErr.valueError "There should be an even number of protocol-url pairs.")
  else
    Except.ok { c with proxy := some (pairsToDict pairs) }

/-- Embedding of `_OptionsKeywords.set_http_authentication` (options.py
lines 96-116): the type string is uppercased and looked up in the dict
with keys STANDARD, ALWAYS_SEND, NTLM; KeyError is converted to
ValueError and nothing is applied in that case. -/
def set_http_authentication (username password ty : String) (c : Client) :
    Except PyErr Client :=
  let t := pyUpper ty
  if t = "STANDARD" then
    Except.ok { c with transport := Transport.httpsAuthenticated username password }
  else if t = "ALWAYS_SEND" then
    Except.ok { c with transport := Transport.alwaysSendAuthenticated username password }
  else if t = "NTLM" then
    Except.ok { c with transport := Transport.windowsHttpAuthenticated username password }
  else
    Except.error (PyErr.valueError "is not a supported type")

/-- Embedding of `_OptionsKeywords.set_return_xml` via
`_set_boolean_option` (options.py lines 85-94 and 168-170): parse the
flag with `to_bool` and set the retxml option. -/
def set_return_xml (flag : String) (c : Client) : Except PyErr Client :=
  match to_bool flag with
  | Except.ok b => Except.ok { c with retxml := b }
  | Except.error e => Except.error e

/-! ### WSDL services and set_location -/

/-- One operation (method) of a WSDL service, with its endpoint
location. -/
structure Method where
  name : String
  location : String
deriving DecidableEq, Repr

/-- A WSDL service: its operations (suds ports are flattened into one
method list, faithful to `suds Service.setlocation` which walks every
method of every port). -/
structure Service where
  methods : List Method
deriving DecidableEq, Repr

/-- suds `Service.setlocation(url, names)`: set `location := url` on
every method when `names` is None, else only on methods whose name is
listed. -/
def Service.setlocation (url : String) (names : Option (List String)) (svc : Service) :
    Service :=
  { methods := svc.methods.map fun m =>
      if (match names with
          | none => true
          | some ns => ns.contains m.name) then
        { m with location := url }
      else m }

/-- Embedding of `_OptionsKeywords.set_location` (options.py lines
118-135):

```
service_count = len(wsdl.services)
service_index = 0 if (service_count==1) else int(service_index)
names = names if names else None
if service_index < 0: every service.setlocation(url, names)
else: wsdl.services[service_index].setlocation(url, names)
```

The argument `service_index` arrives as a string from the test runner;
with more than one service it goes through Python `int()`, which can
raise ValueError; an out-of-range index raises IndexError (a
`LookupError` in Python). -/
def set_location (url : String) (service_index : String) (names : List String)
    (wsdl : List Service) : Except PyErr (List Service) :=
  let names2 : Option (List String) := if names.isEmpty then none else some names
  match (if wsdl.length = 1 then Except.ok 0 else pyInt service_index) with
  | Except.error e => Except.error e
  | Except.ok idx =>
    if idx < 0 then
      Except.ok (wsdl.map (Service.setlocation url names2))
    else if h : idx.toNat < wsdl.length then
      Except.ok (wsdl.set idx.toNat
        (Service.setlocation url names2 (wsdl.get ⟨idx.toNat, h⟩)))
    else
      Except.error PyErr.indexError

/-! ### Pending doctor imports and client creation

State shared between `_OptionsKeywords.add_doctor_import` (options.py
lines 137-153) and `_ClientManagementKeywords.create_client` /
`_add_client` (clientmanagement.py lines 26-50 and 83-92):
`self._imports` is a process-wide list appended to by
`add_doctor_import` and consumed then reset to `[]` by `_add_client`. -/

/-- One entry of `self._imports`: a suds `Import` built from a
namespace, an optional location, and filter namespaces
(`imp.filter.add(filter)` for each filter). -/
structure ImportRec where
  ns : String
  location : Option String
  filters : List String
deriving DecidableEq, Repr

/-- What `_add_client` records for a created client: the doctor built
from the pending imports (if any existed at creation time) and the
logging flag, initialized to enabled. -/
structure ClientRec where
  doctorImports : Option (List ImportRec)
  loggingEnabled : Bool
deriving DecidableEq, Repr

/-- Library state threaded through the keywords that touch
`self._imports`. -/
structure LibState where
  imports : List ImportRec
  clients : List ClientRec
deriving DecidableEq, Repr

/-- `location = location if location else None` (options.py line 149):
Python falsiness maps the empty string and None to None. -/
def normLocation : Option String → Option String
  | none => none
  | some l => if l = "" then none else some l

/-- The suds Import record `add_doctor_import` appends. -/
def mkImport (ns : String) (location : Option String) (filters : List String) :
    ImportRec :=
  { ns := ns, location := normLocation location, filters := filters }

/-- Embedding of `add_doctor_import` (options.py lines 137-153):
append one entry to `self._imports`. -/
def add_doctor_import (ns : String) (location : Option String)
    (filters : List String) (s : LibState) : LibState :=
  { s with imports := s.imports ++ [mkImport ns location filters] }

/-- Embedding of a successful `create_client` (clientmanagement.py
lines 26-50) followed by `_add_client` (lines 83-92): the doctor is
built from `self._imports` only when that list is nonempty
(`if imports:`), the new client is registered with logging enabled,
and `_add_client` resets `self._imports = []`. -/
def create_client (s : LibState) : LibState :=
  { imports := [],
    clients := s.clients ++
      [{ doctorImports := if s.imports.isEmpty then none else some s.imports,
         loggingEnabled := true }] }

/-- A keyword invocation, as far as the pending-import state is
concerned: an Add Doctor Import call, a successful Create Client call,
or any other keyword (which leaves `self._imports` and the client list
alone). -/
inductive Event
  | addImport (ns : String) (location : Option String) (filters : List String)
  | createClient
  | other
deriving DecidableEq, Repr

/-- Effect of one keyword invocation on the shared state. -/
def stepEvent (s : LibState) : Event → LibState
  | Event.addImport ns loc fs => add_doctor_import ns loc fs s
  | Event.createClient => create_client s
  | Event.other => s

/-- State after a sequence of keyword invocations, starting from the
initial empty library state. -/
def runEvents (t : List Event) : LibState :=
  t.foldl stepEvent { imports := [], clients := [] }

theorem runEvents_concat (t : List Event) (e : Event) :
    runEvents (t.concat e) = stepEvent (runEvents t) e := by
  simp [runEvents, List.concat_eq_append, List.foldl_append]

/-- If the pending import list is nonempty after a trace, the trace
ends in an Add Doctor Import call followed only by keywords other than
Create Client. -/
theorem imports_nonempty_split (t : List Event) :
    (runEvents t).imports ≠ [] →
    ∃ t1 ns loc fs t2, t = t1 ++ Event.addImport ns loc fs :: t2 ∧
      ∀ e ∈ t2, e ≠ Event.createClient := by
  induction t using List.reverseRecOn with
  | nil => intro h; exact absurd rfl h
  | append_singleton t e ih =>
    intro h
    cases e with
    | addImport ns loc fs =>
      exact ⟨t, ns, loc, fs, [], by simp, by simp⟩
    | createClient =>
      rw [← List.concat_eq_append, runEvents_concat] at h
      exact absurd rfl h
    | other =>
      rw [← List.concat_eq_append, runEvents_concat] at h
      obtain ⟨t1, ns, loc, fs, t2, heq, hno⟩ := ih h
      refine ⟨t1, ns, loc, fs, t2 ++ [Event.other], ?_, ?_⟩
      · rw [heq]; simp
      · intro e he
        rcases List.mem_append.mp he with h1 | h1
        · exact hno e h1
        · simp at h1; subst h1; simp

/-! ## Claim theorems -/

/-- C1: The pending import set is non-empty only between an Add Doctor
Import call (which appends one entry) and the next Create Client call;
Create Client builds the import doctor from the entries when any
exist, registers the client with logging enabled, and clears the set,
so after every client creation the pending import set is empty. -/
theorem pending_imports_invariant (t : List Event) (ns : String)
    (loc : Option String) (fs : List String) :
    (runEvents (t.concat (Event.addImport ns loc fs))).imports
        = (runEvents t).imports ++ [mkImport ns loc fs] ∧
    (runEvents (t.concat Event.createClient)).imports = [] ∧
    (runEvents (t.concat Event.createClient)).clients
        = (runEvents t).clients ++
          [{ doctorImports := if (runEvents t).imports.isEmpty then none
               else some (runEvents t).imports,
             loggingEnabled := true }] ∧
    ((runEvents t).imports ≠ [] →
      ∃ t1 ns2 loc2 fs2 t2, t = t1 ++ Event.addImport ns2 loc2 fs2 :: t2 ∧
        ∀ e ∈ t2, e ≠ Event.createClient) := by
  refine ⟨?_, ?_, ?_, imports_nonempty_split t⟩
  · rw [runEvents_concat]; rfl
  · rw [runEvents_concat]; rfl
  · rw [runEvents_concat]; rfl

/-- Witness for C1: a trace consisting of a single Add Doctor Import
call leaves the pending import set nonempty, and the decomposition
promised by the invariant exists for it. -/
theorem pending_imports_invariant_witness :
    ∃ t1 ns2 loc2 fs2 t2,
      ([Event.addImport "urn:a" none []] : List Event)
        = t1 ++ Event.addImport ns2 loc2 fs2 :: t2 ∧
      ∀ e ∈ t2, e ≠ Event.createClient :=
  (pending_imports_invariant [Event.addImport "urn:a" none []] "x" none []).2.2.2
    (by decide)

/-- C2: every input whose urlparse scheme is longer than one character
is returned unchanged by `_get_url`; every input without such a scheme
that names an existing regular file is turned into a file: URI whose
path part is the percent-encoded filesystem path. -/
theorem get_url_spec (isfile : String → Bool) (s : String) :
    ((pyScheme s).length > 1 → get_url isfile s = Except.ok s) ∧
    (¬ (pyScheme s).length > 1 → isfile s = true →
      get_url isfile s = Except.ok ("file:" ++ pathname2url s)) := by
  constructor
  · intro h; simp [get_url, h]
  · intro h hf; simp [get_url, h, hf]

/-- Witness for C2: an http URL passes through unchanged; a local path
with a space becomes a percent-encoded file: URI. -/
theorem get_url_spec_witness :
    get_url (fun _ => true) "http://example.com/ws?wsdl"
        = Except.ok "http://example.com/ws?wsdl" ∧
    get_url (fun _ => true) "/tmp/my wsdls/a.wsdl"
        = Except.ok "file:/tmp/my%20wsdls/a.wsdl" := by
  constructor
  · exact (get_url_spec (fun _ => true) "http://example.com/ws?wsdl").1 (by decide)
  · have h := (get_url_spec (fun _ => true) "/tmp/my wsdls/a.wsdl").2 (by decide) rfl
    rw [h]; rfl

/-- C3: `_get_url` fails (with the Python IOError playing the spec's
NotFoundError) exactly when the input has no urlparse scheme longer
than one character and no regular file exists at that path. -/
theorem get_url_not_found_iff (isfile : String → Bool) (s : String) :
    get_url isfile s = Except.error (PyErr.ioError s) ↔
      ¬ (pyScheme s).length > 1 ∧ isfile s = false := by
  unfold get_url
  by_cases h1 : (pyScheme s).length > 1
  · simp [h1]
  · by_cases h2 : isfile s <;> simp [h1, h2]

/-- Witness for C3: a schemeless path with no file behind it raises
the not-found error. -/
theorem get_url_not_found_iff_witness :
    get_url (fun _ => false) "/no/such/file.wsdl"
        = Except.error (PyErr.ioError "/no/such/file.wsdl") :=
  (get_url_not_found_iff (fun _ => false) "/no/such/file.wsdl").mpr
    ⟨by decide, rfl⟩

/-- C4: Set Headers applies a single argument verbatim; an even-length
argument list becomes a name-value mapping in which later occurrences
of a name overwrite earlier ones; any other odd length fails with
ValueError (ArgumentError) and no headers are applied. -/
theorem set_headers_spec (args : List Arg) (c : Client) :
    (∀ a, args = [a] →
      set_headers args c = Except.ok { c with headers := some (Sum.inl a) }) ∧
    (args.length % 2 = 0 →
      set_headers args c
          = Except.ok { c with headers := some (Sum.inr (pairsToDict args)) } ∧
      ∀ k, dlookup (pairsToDict args) k = lookupLastPair (pairsOf args) k) ∧
    (args.length % 2 = 1 → args.length ≠ 1 →
      set_headers args c =
        Except.error
          (PyErr.valueError "There should be an even number of name-value pairs.")) := by
  refine ⟨?_, ?_, ?_⟩
  · rintro a rfl; rfl
  · intro h
    refine ⟨?_, fun k => dlookup_pairsToDict args k⟩
    match args with
    | [] => rfl
    | [a] => simp at h
    | a :: b :: rest =>
      simp only [set_headers]
      rw [if_pos h]
  · intro hodd hne
    match args with
    | [] => simp at hodd
    | [a] => simp at hne
    | a :: b :: rest =>
      simp only [set_headers]
      rw [if_neg (by omega)]

/-- Witness for C4: four string arguments build the two-entry mapping;
three arguments fail; a single dictionary argument passes verbatim. -/
theorem set_headers_spec_witness :
    set_headers [Arg.str "X", Arg.str "1", Arg.str "Y", Arg.str "2"] {}
        = Except.ok { headers := some (Sum.inr
            [(Arg.str "X", Arg.str "1"), (Arg.str "Y", Arg.str "2")]) } ∧
    set_headers [Arg.str "X", Arg.str "1", Arg.str "Y"] {}
        = Except.error
            (PyErr.valueError "There should be an even number of name-value pairs.") ∧
    set_headers [Arg.dict [("X-Requested-With", "autogen")]] {}
        = Except.ok { headers := some (Sum.inl (Arg.dict [("X-Requested-With", "autogen")])) } := by
  refine ⟨?_, ?_, ?_⟩
  · have h := ((set_headers_spec
        [Arg.str "X", Arg.str "1", Arg.str "Y", Arg.str "2"] {}).2.1 (by decide)).1
    rw [h]; rfl
  · exact (set_headers_spec [Arg.str "X", Arg.str "1", Arg.str "Y"] {}).2.2
      (by decide) (by decide)
  · exact (set_headers_spec [Arg.dict [("X-Requested-With", "autogen")]] {}).1 _ rfl

/-- C5: Set Proxies fails with ValueError (ArgumentError) on an
odd-length argument list before any proxy setting changes; on an
even-length list it builds the protocol-to-URL mapping, later pairs
overwriting earlier ones for the same protocol, and applies it to the
current client. -/
theorem set_proxies_spec (pairs : List Arg) (c : Client) :
    (pairs.length % 2 ≠ 0 →
      set_proxies pairs c =
        Except.error
          (PyErr.valueError "There should be an even number of protocol-url pairs.")) ∧
    (pairs.length % 2 = 0 →
      set_proxies pairs c = Except.ok { c with proxy := some (pairsToDict pairs) } ∧
      ∀ k, dlookup (pairsToDict pairs) k = lookupLastPair (pairsOf pairs) k) := by
  constructor
  · intro h; simp [set_proxies, h]
  · intro h
    exact ⟨by simp [set_proxies, h], fun k => dlookup_pairsToDict pairs k⟩

/-- Witness for C5: two protocol-URL pairs build the mapping; an odd
list of three arguments fails. -/
theorem set_proxies_spec_witness :
    set_proxies [Arg.str "http", Arg.str "a", Arg.str "https", Arg.str "b"] {}
        = Except.ok { proxy := (
            some [(Arg.str "http", Arg.str "a"), (Arg.str "https", Arg.str "b")]) } ∧
    set_proxies [Arg.str "http", Arg.str "a", Arg.str "https"] {}
        = Except.error
            (PyErr.valueError "There should be an even number of protocol-url pairs.") := by
  constructor
  · have h := ((set_proxies_spec
        [Arg.str "http", Arg.str "a", Arg.str "https", Arg.str "b"] {}).2 (by decide)).1
    rw [h]; rfl
  · exact (set_proxies_spec [Arg.str "http", Arg.str "a", Arg.str "https"] {}).1
      (by decide)

/-- C6: Set Http Authentication matches the type string
case-insensitively (via upper-casing) against exactly STANDARD,
ALWAYS_SEND and NTLM, installing respectively the challenge-response
https transport, the always-send transport and the NTLM transport; any
other type fails with ValueError (ArgumentError) and no transport is
installed. -/
theorem set_http_authentication_spec (u p ty : String) (c : Client) :
    (pyUpper ty = "STANDARD" →
      set_http_authentication u p ty c =
        Except.ok { c with transport := Transport.httpsAuthenticated u p }) ∧
    (pyUpper ty = "ALWAYS_SEND" →
      set_http_authentication u p ty c =
        Except.ok { c with transport := Transport.alwaysSendAuthenticated u p }) ∧
    (pyUpper ty = "NTLM" →
      set_http_authentication u p ty c =
        Except.ok { c with transport := Transport.windowsHttpAuthenticated u p }) ∧
    (pyUpper ty ≠ "STANDARD" → pyUpper ty ≠ "ALWAYS_SEND" → pyUpper ty ≠ "NTLM" →
      set_http_authentication u p ty c =
        Except.error (PyErr.valueError "is not a supported type")) := by
  refine ⟨?_, ?_, ?_, ?_⟩
  · intro h; simp [set_http_authentication, h]
  · intro h; simp [set_http_authentication, h]
  · intro h; simp [set_http_authentication, h]
  · intro h1 h2 h3; simp [set_http_authentication, h1, h2, h3]

/-- Witness for C6: "ntlm" and "NTLM" both select the NTLM transport;
"bogus" fails. -/
theorem set_http_authentication_spec_witness :
    set_http_authentication "u" "p" "ntlm" {}
        = Except.ok { transport := Transport.windowsHttpAuthenticated "u" "p" } ∧
    set_http_authentication "u" "p" "NTLM" {}
        = Except.ok { transport := Transport.windowsHttpAuthenticated "u" "p" } ∧
    set_http_authentication "u" "p" "bogus" {}
        = Except.error (PyErr.valueError "is not a supported type") := by
  refine ⟨?_, ?_, ?_⟩
  · exact (set_http_authentication_spec "u" "p" "ntlm" {}).2.2.1 (by decide)
  · exact (set_http_authentication_spec "u" "p" "NTLM" {}).2.2.1 (by decide)
  · exact (set_http_authentication_spec "u" "p" "bogus" {}).2.2.2
      (by decide) (by decide) (by decide)

/-- C7: Set Location treats any service index as 0 when the WSDL
defines exactly one service; with several services, a negative index
applies the location to every service, a non-negative in-range index
only to that service, and an out-of-range index fails with IndexError
(a Python LookupError); with no operation names every operation of the
targeted services is relocated, otherwise only the named ones. -/
theorem set_location_spec (wsdl : List Service) (url idxStr : String)
    (names : List String) (n : Int) :
    (∀ svc, wsdl = [svc] →
      set_location url idxStr names wsdl =
        Except.ok [Service.setlocation url
          (if names.isEmpty then none else some names) svc]) ∧
    (wsdl.length ≠ 1 → pyInt idxStr = Except.ok n → n < 0 →
      set_location url idxStr names wsdl =
        Except.ok (wsdl.map
          (Service.setlocation url (if names.isEmpty then none else some names)))) ∧
    (wsdl.length ≠ 1 → pyInt idxStr = Except.ok n → 0 ≤ n →
      ∀ h : n.toNat < wsdl.length,
      set_location url idxStr names wsdl =
        Except.ok (wsdl.set n.toNat
          (Service.setlocation url (if names.isEmpty then none else some names)
            (wsdl.get ⟨n.toNat, h⟩)))) ∧
    (wsdl.length ≠ 1 → pyInt idxStr = Except.ok n → 0 ≤ n →
      wsdl.length ≤ n.toNat →
      set_location url idxStr names wsdl = Except.error PyErr.indexError) ∧
    (∀ svc, (Service.setlocation url
        (if names.isEmpty then none else some names) svc).methods =
      svc.methods.map fun m =>
        if names.isEmpty || names.contains m.name then
          { m with location := url }
        else m) := by
  refine ⟨?_, ?_, ?_, ?_, ?_⟩
  · rintro svc rfl; rfl
  · intro h1 h2 h3
    unfold set_location
    rw [if_neg h1, h2]
    simp only
    rw [if_pos h3]
  · intro h1 h2 h3 h
    unfold set_location
    rw [if_neg h1, h2]
    simp only
    rw [if_neg (by omega), dif_pos h]
  · intro h1 h2 h3 h4
    unfold set_location
    rw [if_neg h1, h2]
    simp only
    rw [if_neg (by omega), dif_neg (by omega)]
  · intro svc
    cases hn : names with
    | nil => simp [Service.setlocation]
    | cons a l => simp [Service.setlocation]

/-- Witness for C7: on a WSDL with three services, Set Location with
index -1 and no names relocates every operation of all three. -/
theorem set_location_spec_witness :
    set_location "http://new" "-1" []
        [⟨[⟨"op1", "a"⟩]⟩, ⟨[⟨"op2", "b"⟩]⟩, ⟨[⟨"op3", "c"⟩]⟩] =
      Except.ok
        [⟨[⟨"op1", "http://new"⟩]⟩, ⟨[⟨"op2", "http://new"⟩]⟩,
         ⟨[⟨"op3", "http://new"⟩]⟩] := by
  have h := (set_location_spec
      [⟨[⟨"op1", "a"⟩]⟩, ⟨[⟨"op2", "b"⟩]⟩, ⟨[⟨"op3", "c"⟩]⟩]
      "http://new" "-1" [] (-1)).2.1 (by decide) rfl (by decide)
  rw [h]; rfl

/-- C8: the boolean-string parser used by Create Client for autoblend
and by Set Return Xml maps "True", "true", "yes", "on", "1" to true,
"False", "false", "no", "off", "0" and the empty string to false, and
fails with ValueError (ArgumentError) for every other literal; Set
Return Xml stores the parsed value as the retxml option. -/
theorem to_bool_spec :
    (to_bool "True" = Except.ok true ∧ to_bool "true" = Except.ok true ∧
     to_bool "yes" = Except.ok true ∧ to_bool "on" = Except.ok true ∧
     to_bool "1" = Except.ok true) ∧
    (to_bool "False" = Except.ok false ∧ to_bool "false" = Except.ok false ∧
     to_bool "no" = Except.ok false ∧ to_bool "off" = Except.ok false ∧
     to_bool "0" = Except.ok false ∧ to_bool "" = Except.ok false) ∧
    (∀ s : String, s ≠ "True" → s ≠ "true" → s ≠ "yes" → s ≠ "on" → s ≠ "1" →
      s ≠ "False" → s ≠ "false" → s ≠ "no" → s ≠ "off" → s ≠ "0" → s ≠ "" →
      to_bool s = Except.error (PyErr.valueError "could not convert string to bool")) ∧
    (∀ (s : String) (c : Client) (b : Bool), to_bool s = Except.ok b →
      set_return_xml s c = Except.ok { c with retxml := b }) := by
  refine ⟨⟨rfl, rfl, rfl, rfl, rfl⟩, ⟨rfl, rfl, rfl, rfl, rfl, rfl⟩, ?_, ?_⟩
  · intro s h1 h2 h3 h4 h5 h6 h7 h8 h9 h10 h11
    simp [to_bool, h1, h2, h3, h4, h5, h6, h7, h8, h9, h10, h11]
  · intro s c b h
    simp [set_return_xml, h]

/-- Witness for C8: "maybe" is rejected, and Set Return Xml "yes"
enables raw-XML returns. -/
theorem to_bool_spec_witness :
    to_bool "maybe" = Except.error (PyErr.valueError "could not convert string to bool") ∧
    set_return_xml "yes" {} = Except.ok { retxml := true } := by
  constructor
  · exact to_bool_spec.2.2.1 "maybe" (by decide) (by decide) (by decide) (by decide)
      (by decide) (by decide) (by decide) (by decide) (by decide) (by decide) (by decide)
  · exact to_bool_spec.2.2.2 "yes" {} true rfl

/-- C9: Set Headers with zero arguments does not fail: zero is an even
length, so the empty mapping is built and applied, clearing any
previously set extra HTTP headers. -/
theorem set_headers_empty (c : Client) :
    set_headers [] c = Except.ok { c with headers := some (Sum.inr []) } := rfl

/-- C10: with exactly one service in the WSDL, Set Location never
converts or range-checks its service index: any index string, numeric
or not, is replaced by 0 and the location is applied to the single
service, so the int-conversion and out-of-range failure branches are
unreachable. -/
theorem set_location_single_service (svc : Service) (url idxStr : String)
    (names : List String) :
    set_location url idxStr names [svc] =
      Except.ok [Service.setlocation url
        (if names.isEmpty then none else some names) svc] := rfl
